import Mathlib

/-!
Verification of the prestressed-beam calculation pipeline
(backend/calculations.py together with the data model of backend/models.py).

The Python code computes with IEEE floats; this development models that
arithmetic over the real numbers.  The decimal rounding that the source
applies to the fields of its result records (a presentation concern) is not
modelled: every stored value is the exact real it rounds.  Python `or`
defaults (which treat both None and 0.0 as missing) are modelled by `pyOr`.
The float value `inf`, which the source produces for a utilization with zero
capacity, is modelled by the top element of the extended reals `EReal`.
-/

noncomputable section

/-- Concrete material properties, mirroring the ConcreteProperties model.
The fields density, creep_coefficient and shrinkage_strain carry the model
defaults 25, 2.0 and 0.0003 when built by calculate_concrete_properties. -/
structure ConcreteProperties where
  fck : ℝ
  fck_cube : ℝ
  fcm : ℝ
  fctm : ℝ
  fctk_005 : ℝ
  fctk_095 : ℝ
  Ecm : ℝ
  density : ℝ
  creep_coefficient : ℝ
  shrinkage_strain : ℝ

/-- Derived concrete properties from fck, mirroring calculate_concrete_properties. -/
def calculate_concrete_properties (fck : ℝ) : ConcreteProperties :=
  let fcm := fck + 8
  let fctm := if fck ≤ 50 then 0.30 * fck ^ ((2 : ℝ) / 3) else 2.12 * Real.log (1 + fcm / 10)
  { fck := fck
    fck_cube := fck / 0.8
    fcm := fcm
    fctm := fctm
    fctk_005 := 0.7 * fctm
    fctk_095 := 1.3 * fctm
    Ecm := 22 * ((fcm / 10) ^ ((0.3 : ℝ)))
    density := 25
    creep_coefficient := 2
    shrinkage_strain := 0.0003 }

/-- Rectangular beam section dimensions (mm). -/
structure RectangularSection where
  width : ℝ
  height : ℝ

/-- T-beam section dimensions (mm). -/
structure TBeamSection where
  bw : ℝ
  bf : ℝ
  hf : ℝ
  h : ℝ

/-- I-beam (double T) section dimensions (mm). -/
structure IBeamSection where
  bw : ℝ
  bf_top : ℝ
  bf_bot : ℝ
  hf_top : ℝ
  hf_bot : ℝ
  h : ℝ

/-- Box girder section dimensions (mm). -/
structure BoxGirderSection where
  b_top : ℝ
  b_bot : ℝ
  b_int : ℝ
  t_top : ℝ
  t_bot : ℝ
  t_web : ℝ
  h : ℝ

/-- The tagged union of the four parametric shapes (BeamSection model with its
section_type discriminator and exactly one populated variant). -/
inductive BeamSection where
  | rectangular (s : RectangularSection)
  | t_beam (s : TBeamSection)
  | i_beam (s : IBeamSection)
  | box_girder (s : BoxGirderSection)

/-- Derived geometric section properties (SectionProperties model). -/
structure SectionProperties where
  area : ℝ
  I : ℝ
  y_top : ℝ
  y_bot : ℝ
  Z_top : ℝ
  Z_bot : ℝ
  perimeter : ℝ

/-- Geometric section properties per shape, mirroring calculate_section_properties. -/
def calculate_section_properties : BeamSection → SectionProperties
  | BeamSection.rectangular s =>
      let b := s.width
      let h := s.height
      let area := b * h
      let I := b * h ^ 3 / 12
      let y_top := h / 2
      let y_bot := h / 2
      { area := area, I := I, y_top := y_top, y_bot := y_bot
        Z_top := I / y_top, Z_bot := I / y_bot, perimeter := 2 * (b + h) }
  | BeamSection.t_beam s =>
      let bw := s.bw
      let bf := s.bf
      let hf := s.hf
      let h := s.h
      let hw := h - hf
      let area := bf * hf + bw * hw
      let y_bar := (bf * hf * (h - hf / 2) + bw * hw * (hw / 2)) / area
      let y_bot := y_bar
      let y_top := h - y_bar
      let I_flange := bf * hf ^ 3 / 12 + bf * hf * ((h - hf / 2) - y_bar) ^ 2
      let I_web := bw * hw ^ 3 / 12 + bw * hw * ((hw / 2) - y_bar) ^ 2
      let I := I_flange + I_web
      { area := area, I := I, y_top := y_top, y_bot := y_bot
        Z_top := I / y_top, Z_bot := I / y_bot
        perimeter := 2 * h + 2 * bf + 2 * (bf - bw) }
  | BeamSection.i_beam s =>
      let bw := s.bw
      let h := s.h
      let hw := h - s.hf_top - s.hf_bot
      let A_top := s.bf_top * s.hf_top
      let A_web := bw * hw
      let A_bot := s.bf_bot * s.hf_bot
      let area := A_top + A_web + A_bot
      let y_bar := (A_bot * (s.hf_bot / 2) + A_web * (s.hf_bot + hw / 2)
        + A_top * (h - s.hf_top / 2)) / area
      let y_bot := y_bar
      let y_top := h - y_bar
      let I_bot := s.bf_bot * s.hf_bot ^ 3 / 12 + A_bot * ((s.hf_bot / 2) - y_bar) ^ 2
      let I_web := bw * hw ^ 3 / 12 + A_web * ((s.hf_bot + hw / 2) - y_bar) ^ 2
      let I_top := s.bf_top * s.hf_top ^ 3 / 12 + A_top * ((h - s.hf_top / 2) - y_bar) ^ 2
      let I := I_bot + I_web + I_top
      { area := area, I := I, y_top := y_top, y_bot := y_bot
        Z_top := I / y_top, Z_bot := I / y_bot
        perimeter := 2 * h + s.bf_top + s.bf_bot + 2 * (s.bf_top - bw) + 2 * (s.bf_bot - bw) }
  | BeamSection.box_girder s =>
      let h := s.h
      let h_int := h - s.t_top - s.t_bot
      let A_top := s.b_top * s.t_top
      let A_bot := s.b_bot * s.t_bot
      let A_webs := 2 * s.t_web * h_int
      let area := A_top + A_bot + A_webs
      let y_bar := (A_bot * (s.t_bot / 2) + A_webs * (s.t_bot + h_int / 2)
        + A_top * (h - s.t_top / 2)) / area
      let y_bot := y_bar
      let y_top := h - y_bar
      let I_bot := s.b_bot * s.t_bot ^ 3 / 12 + A_bot * ((s.t_bot / 2) - y_bar) ^ 2
      let I_webs := 2 * (s.t_web * h_int ^ 3 / 12 + A_webs / 2 * ((s.t_bot + h_int / 2) - y_bar) ^ 2)
      let I_top := s.b_top * s.t_top ^ 3 / 12 + A_top * ((h - s.t_top / 2) - y_bar) ^ 2
      let I := I_bot + I_webs + I_top
      { area := area, I := I, y_top := y_top, y_bot := y_bot
        Z_top := I / y_top, Z_bot := I / y_bot
        perimeter := 2 * (s.b_top + s.b_bot) + 4 * h_int }

/-- Total section height, mirroring get_section_height. -/
def get_section_height : BeamSection → ℝ
  | BeamSection.rectangular s => s.height
  | BeamSection.t_beam s => s.h
  | BeamSection.i_beam s => s.h
  | BeamSection.box_girder s => s.h

/-- Web width used in shear formulas, mirroring get_web_width (box girders
carry shear in two webs, hence twice the single-web thickness). -/
def get_web_width : BeamSection → ℝ
  | BeamSection.rectangular s => s.width
  | BeamSection.t_beam s => s.bw
  | BeamSection.i_beam s => s.bw
  | BeamSection.box_girder s => 2 * s.t_web

/-- A point load: magnitude in kN, position in m from the left support. -/
structure PointLoad where
  magnitude : ℝ
  position : ℝ

/-- An applied moment load: magnitude in kNm, position in m. -/
structure MomentLoad where
  magnitude : ℝ
  position : ℝ

/-- A load case (LoadCase model): a UDL, point loads, applied moments and
combination metadata. -/
structure LoadCase where
  name : String
  udl : ℝ
  point_loads : List PointLoad
  moments : List MomentLoad
  is_permanent : Bool
  load_factor_uls : ℝ
  load_factor_sls : ℝ

/-- Governing demand for a simply supported span, mirroring
calculate_moments_and_shear; the loop accumulations become list sums.
Returns (M_max, V_max, M_udl, total_udl). -/
def calculate_moments_and_shear (span : ℝ) (load_cases : List LoadCase)
    (self_weight_udl factor : ℝ) : ℝ × ℝ × ℝ × ℝ :=
  let total_udl := self_weight_udl * factor + (load_cases.map fun lc => lc.udl * factor).sum
  let M_pt := (load_cases.map fun lc =>
    (lc.point_loads.map fun pl =>
      pl.magnitude * factor * pl.position * (span - pl.position) / span).sum).sum
  let V_pt := (load_cases.map fun lc =>
    (lc.point_loads.map fun pl =>
      pl.magnitude * factor * max pl.position (span - pl.position) / span).sum).sum
  let M_udl := total_udl * span ^ 2 / 8
  let V_udl := total_udl * span / 2
  (M_pt + M_udl, V_pt + V_udl, M_udl, total_udl)

/-- A load case with its applied moments removed and every other field kept. -/
def eraseMoments (lc : LoadCase) : LoadCase := { lc with moments := [] }

/-- Tendon profile discriminator (the TendonProfile literal type). -/
inductive TendonProfile where
  | straight
  | parabolic
  | harped
  | multi_parabolic
deriving DecidableEq

/-- Strand type discriminator (the StrandType literal type). -/
inductive StrandType where
  | seven_wire_strand
  | nineteen_wire_strand
  | bar
deriving DecidableEq

/-- Prestressing steel properties (PrestressingSteel model).  The field
relaxationClass models the relaxation_class discriminator of the source. -/
structure PrestressingSteel where
  fp01k : ℝ
  fpk : ℝ
  Ep : ℝ
  strand_type : StrandType
  strand_area : ℝ
  relaxationClass : ℤ
  relaxation_loss_1000h : ℝ

/-- Tendon geometry (TendonGeometry model): a profile discriminator together
with the optional per-profile eccentricity fields of the source model. -/
structure TendonGeometry where
  profile_type : TendonProfile
  num_strands : ℕ
  eccentricity : Option ℝ
  e_end : Option ℝ
  e_mid : Option ℝ
  e_support : Option ℝ
  e_drape : Option ℝ
  drape_position : Option ℝ
  inflection_points : Option (List ℝ)
  eccentricities : Option (List ℝ)

/-- Prestressing method discriminator. -/
inductive PrestressType where
  | pretensioned
  | post_tensioned
deriving DecidableEq

/-- Prestress input parameters (PrestressInput model). -/
structure PrestressInput where
  prestress_type : PrestressType
  jacking_stress : ℝ
  tendon : TendonGeometry
  steel : PrestressingSteel
  duct_diameter : Option ℝ
  friction_coefficient : ℝ
  wobble_coefficient : ℝ

/-- Python `x or default` on an optional float: None and 0.0 are both falsy,
so a stored zero falls back to the default exactly as in the source. -/
def pyOr (x : Option ℝ) (d : ℝ) : ℝ :=
  match x with
  | none => d
  | some v => if v = 0 then d else v

/-- Prestress loss components and totals (PrestressLosses model). -/
structure PrestressLosses where
  elastic_shortening : ℝ
  friction : ℝ
  anchorage_slip : ℝ
  creep : ℝ
  shrinkage : ℝ
  relaxation : ℝ
  total_immediate : ℝ
  total_time_dependent : ℝ
  total : ℝ
  loss_ratio : ℝ

/-- Prestress losses per EC2 5.10, mirroring calculate_prestress_losses, with
exact reals in place of the final fixed-decimal presentation rounding. -/
def calculate_prestress_losses (prestress : PrestressInput)
    (section_props : SectionProperties) (concrete : ConcreteProperties)
    (span eccentricity : ℝ) : PrestressLosses :=
  let steel := prestress.steel
  let Ap := steel.strand_area * (prestress.tendon.num_strands : ℝ)
  let Ep := steel.Ep * 1000
  let Ecm := concrete.Ecm * 1000
  let sigma_pi := prestress.jacking_stress
  let P_i := sigma_pi * Ap / 1000
  let sigma_cp := P_i * 1000 / section_props.area
    + (P_i * 1000 * eccentricity ^ 2) / section_props.I
  let delta_elastic := (Ep / Ecm) * sigma_cp
  let elastic_shortening :=
    if prestress.prestress_type = PrestressType.pretensioned then delta_elastic
    else delta_elastic / 2
  let friction :=
    if prestress.prestress_type = PrestressType.post_tensioned then
      let mu := prestress.friction_coefficient
      let k := prestress.wobble_coefficient
      let theta :=
        if prestress.tendon.profile_type = TendonProfile.parabolic
            ∨ prestress.tendon.profile_type = TendonProfile.multi_parabolic then
          let e_mid := pyOr prestress.tendon.e_mid eccentricity
          let e_end := pyOr prestress.tendon.e_end 0
          let sag := |e_mid - e_end| / 1000
          4 * sag / span
        else 0
      let x := span / 2
      sigma_pi * (1 - Real.exp (-mu * theta - k * x))
    else 0
  let anchorage_slip :=
    if prestress.prestress_type = PrestressType.post_tensioned then
      6 * Ep / (span * 1000)
    else 0
  let total_immediate := elastic_shortening + friction + anchorage_slip
  let phi := concrete.creep_coefficient
  let creep := (Ep / Ecm) * phi * sigma_cp
  let shrinkage := concrete.shrinkage_strain * Ep
  let rho_1000 := steel.relaxation_loss_1000h / 100
  let mu_val := (sigma_pi - total_immediate) / steel.fpk
  let relaxation_raw :=
    if steel.relaxationClass = 2 then
      0.66 * rho_1000 * Real.exp (9.1 * mu_val) * ((500000 / 1000 : ℝ) ^ ((0.75 : ℝ)))
        * (1 - mu_val) * sigma_pi / 100
    else
      5.39 * rho_1000 * Real.exp (6.7 * mu_val) * ((500000 / 1000 : ℝ) ^ ((0.75 : ℝ)))
        * (1 - mu_val) * sigma_pi / 100
  let relaxation := min relaxation_raw (0.08 * sigma_pi)
  let total_time_dependent := creep + shrinkage + relaxation
  let total := total_immediate + total_time_dependent
  let loss_ratio := total / sigma_pi * 100
  { elastic_shortening := elastic_shortening
    friction := friction
    anchorage_slip := anchorage_slip
    creep := creep
    shrinkage := shrinkage
    relaxation := relaxation
    total_immediate := total_immediate
    total_time_dependent := total_time_dependent
    total := total
    loss_ratio := loss_ratio }

/-- Sample prestressing steel used by the witness instances. -/
def sampleSteel : PrestressingSteel :=
  { fp01k := 1640, fpk := 1860, Ep := 195, strand_type := StrandType.seven_wire_strand
    strand_area := 140, relaxationClass := 2, relaxation_loss_1000h := 2.5 }

/-- Sample parabolic tendon used by the witness instances. -/
def sampleTendon : TendonGeometry :=
  { profile_type := TendonProfile.parabolic, num_strands := 12
    eccentricity := none, e_end := some 0, e_mid := some 300
    e_support := none, e_drape := none, drape_position := none
    inflection_points := none, eccentricities := none }

/-- Sample post-tensioned prestress configuration used by the witnesses. -/
def samplePrestress : PrestressInput :=
  { prestress_type := PrestressType.post_tensioned, jacking_stress := 1400
    tendon := sampleTendon, steel := sampleSteel, duct_diameter := none
    friction_coefficient := 0.19, wobble_coefficient := 0.008 }

/-- Section properties of the sample 400 x 800 mm rectangular section. -/
def sampleSectionProps : SectionProperties :=
  calculate_section_properties (BeamSection.rectangular ⟨400, 800⟩)

/-- Single point of the Magnel diagram: inverse force 1/P (1/kN) against
eccentricity e (mm). -/
structure MagnelPoint where
  inverse_force : ℝ
  eccentricity : ℝ

/-- Magnel diagram data (MagnelDiagram model). -/
structure MagnelDiagram where
  line1_top_transfer : List MagnelPoint
  line2_bot_transfer : List MagnelPoint
  line3_top_service : List MagnelPoint
  line4_bot_service : List MagnelPoint
  feasible_region : List MagnelPoint
  optimal_point : MagnelPoint
  min_force : ℝ
  max_force : ℝ
  min_eccentricity : ℝ
  max_eccentricity : ℝ

/-- The fixed 50-point eccentricity grid between the geometric bounds
e_min = -(y_top - 50) and e_max = y_bot - 50 (50 mm minimum cover). -/
def magnelEccRange (section_props : SectionProperties) : List ℝ :=
  let e_max := section_props.y_bot - 50
  let e_min := -(section_props.y_top - 50)
  (List.range 50).map fun (i : ℕ) => e_min + (i : ℝ) * (e_max - e_min) / 49

/-- One candidate Magnel point: the loop body of calculate_magnel_diagram,
which skips near-zero denominators and keeps only strictly positive
inverse-force values. -/
def magnelEmit (num den e : ℝ) : Option MagnelPoint :=
  if |den| > 1e-6 then
    if num / den > 0 then some { inverse_force := num / den * 1e3, eccentricity := e }
    else none
  else none

/-- Magnel diagram generation, mirroring calculate_magnel_diagram. -/
def calculate_magnel_diagram (section_props : SectionProperties)
    (concrete : ConcreteProperties) (M_min M_max : ℝ) (losses : PrestressLosses)
    (h : ℝ) : MagnelDiagram :=
  let fck := concrete.fck
  let fctm := concrete.fctm
  let fci := 0.8 * fck
  let sigma_c_max_transfer := 0.6 * fci
  let sigma_t_max_transfer := fctm
  let sigma_c_max_service := 0.6 * fck
  let sigma_t_max_service := (0 : ℝ)
  let eta := 1 - losses.loss_ratio / 100
  let A := section_props.area
  let Z_t := section_props.Z_top
  let Z_b := section_props.Z_bot
  let M_min_Nmm := M_min * 1e6
  let M_max_Nmm := M_max * 1e6
  let e_max := section_props.y_bot - 50
  let e_min := -(section_props.y_top - 50)
  let e_range := magnelEccRange section_props
  let denom1 := sigma_c_max_transfer + M_min_Nmm / Z_t
  let denom2 := sigma_t_max_transfer + M_min_Nmm / Z_b
  let denom3 := (sigma_t_max_service + M_max_Nmm / Z_t) / eta
  let denom4 := (sigma_c_max_service - M_max_Nmm / Z_b) / eta
  let line1 := e_range.filterMap fun e => magnelEmit (1 / A - e / Z_t) denom1 e
  let line2 := e_range.filterMap fun e => magnelEmit (1 / A + e / Z_b) denom2 e
  let line3 := e_range.filterMap fun e => magnelEmit (1 / A - e / Z_t) denom3 e
  let line4 := e_range.filterMap fun e => magnelEmit (1 / A + e / Z_b) denom4 e
  let optimal_e := e_max * 0.8
  let optimal_inv_P :=
    if sigma_t_max_transfer + M_min_Nmm / Z_b > 0 then
      max ((1 / A + optimal_e / Z_b) / (sigma_t_max_transfer + M_min_Nmm / Z_b))
        ((1 / A - optimal_e / Z_t) / ((sigma_t_max_service + M_max_Nmm / Z_t) / eta))
    else 1e-6
  let optimal_P := if optimal_inv_P > 0 then 1 / (optimal_inv_P * 1e-3) else 0
  { line1_top_transfer := line1
    line2_bot_transfer := line2
    line3_top_service := line3
    line4_bot_service := line4
    feasible_region := []
    optimal_point := { inverse_force := optimal_inv_P * 1e3, eccentricity := optimal_e }
    min_force := optimal_P * 0.5
    max_force := optimal_P * 2
    min_eccentricity := e_min
    max_eccentricity := e_max }

/-- Invariants of one Magnel line: at most 50 points, each with strictly
positive inverse-force and an eccentricity drawn from the grid. -/
def magnelLineOK (line : List MagnelPoint) (grid : List ℝ) : Prop :=
  line.length ≤ 50 ∧ ∀ p ∈ line, 0 < p.inverse_force ∧ p.eccentricity ∈ grid

/-- Losses of the sample configuration, used only as witness input data. -/
def sampleLosses : PrestressLosses :=
  calculate_prestress_losses samplePrestress sampleSectionProps
    (calculate_concrete_properties 40) 20 300

/-- Estimated web width from height, mirroring get_web_width_from_h. -/
def get_web_width_from_h (h : ℝ) : ℝ := h * 0.3

/-- Flexure verifier results (FlexureResult model); utilization lives in the
extended reals so that a zero capacity yields the float infinity faithfully. -/
structure FlexureResult where
  M_Ed : ℝ
  M_Rd : ℝ
  utilization : EReal
  status : String
  sigma_top_transfer : ℝ
  sigma_bot_transfer : ℝ
  sigma_top_service : ℝ
  sigma_bot_service : ℝ

/-- The ultimate moment capacity computed inside calculate_flexure: simplified
rectangular stress block using the 0.3 h web-width estimate. -/
def flexure_M_Rd (concrete : ConcreteProperties) (prestress : PrestressInput)
    (eccentricity h : ℝ) : ℝ :=
  let Ap := prestress.steel.strand_area * (prestress.tendon.num_strands : ℝ)
  let fcd := 0.85 * concrete.fck / 1.5
  let fpd := prestress.steel.fp01k / 1.15
  let d := h - (h / 2 - eccentricity)
  let x := Ap * fpd / (0.8 * fcd * get_web_width_from_h h)
  let z := if x > 0 then d - 0.4 * x else 0.9 * d
  Ap * fpd * z / 1e6

/-- Flexural check per EC2 6.1, mirroring calculate_flexure (capacity factored
out as flexure_M_Rd). -/
def calculate_flexure (section_props : SectionProperties) (concrete : ConcreteProperties)
    (prestress : PrestressInput) (losses : PrestressLosses)
    (M_Ed M_transfer eccentricity h : ℝ) : FlexureResult :=
  let Ap := prestress.steel.strand_area * (prestress.tendon.num_strands : ℝ)
  let sigma_pe := prestress.jacking_stress - losses.total
  let P_e := sigma_pe * Ap / 1000
  let sigma_pi := prestress.jacking_stress - losses.total_immediate
  let P_i := sigma_pi * Ap / 1000
  let M_Rd := flexure_M_Rd concrete prestress eccentricity h
  let A := section_props.area
  let Z_t := section_props.Z_top
  let Z_b := section_props.Z_bot
  let sigma_top_transfer :=
    -P_i * 1000 / A + P_i * 1000 * eccentricity / Z_t - M_transfer * 1e6 / Z_t
  let sigma_bot_transfer :=
    -P_i * 1000 / A - P_i * 1000 * eccentricity / Z_b + M_transfer * 1e6 / Z_b
  let sigma_top_service :=
    -P_e * 1000 / A + P_e * 1000 * eccentricity / Z_t - M_Ed * 1e6 / Z_t
  let sigma_bot_service :=
    -P_e * 1000 / A - P_e * 1000 * eccentricity / Z_b + M_Ed * 1e6 / Z_b
  let utilization : EReal := if M_Rd > 0 then ((M_Ed / M_Rd : ℝ) : EReal) else ⊤
  let status := if utilization ≤ (1 : EReal) then "PASS" else "FAIL"
  { M_Ed := M_Ed, M_Rd := M_Rd, utilization := utilization, status := status
    sigma_top_transfer := sigma_top_transfer
    sigma_bot_transfer := sigma_bot_transfer
    sigma_top_service := sigma_top_service
    sigma_bot_service := sigma_bot_service }

/-- Shear verifier results (ShearResult model). -/
structure ShearResult where
  V_Ed : ℝ
  V_Rd_c : ℝ
  V_Rd_s : ℝ
  V_Rd_max : ℝ
  utilization : EReal
  status : String
  shear_reinforcement_required : Bool
  Asw_s : Option ℝ

/-- The governing shear resistance computed inside calculate_shear: concrete
resistance with minimum-value floor and, when reinforcement is required, the
combined resistance capped by the strut-crushing ceiling. -/
def shear_V_Rd (section_props : SectionProperties) (sec : BeamSection)
    (concrete : ConcreteProperties) (prestress : PrestressInput)
    (losses : PrestressLosses) (V_Ed h : ℝ) : ℝ :=
  let Ap := prestress.steel.strand_area * (prestress.tendon.num_strands : ℝ)
  let sigma_pe := prestress.jacking_stress - losses.total
  let P_e := sigma_pe * Ap / 1000
  let bw := get_web_width sec
  let d := 0.9 * h
  let fck := concrete.fck
  let fcd := 0.85 * fck / 1.5
  let k := min (1 + Real.sqrt (200 / d)) 2.0
  let rho_l := min (Ap / (bw * d)) 0.02
  let sigma_cp := min (P_e * 1000 / section_props.area) (0.2 * fcd)
  let C_Rd_c := 0.18 / 1.5
  let k1 := (0.15 : ℝ)
  let V_Rd_c0 := (C_Rd_c * k * (100 * rho_l * fck) ^ ((1 : ℝ) / 3) + k1 * sigma_cp) * bw * d / 1000
  let v_min := 0.035 * k ^ ((1.5 : ℝ)) * fck ^ ((0.5 : ℝ))
  let V_Rd_c_min := (v_min + k1 * sigma_cp) * bw * d / 1000
  let V_Rd_c := max V_Rd_c0 V_Rd_c_min
  let alpha_cw := if sigma_cp > 0 then 1 + sigma_cp / fcd else 1
  let v1 := 0.6 * (1 - fck / 250)
  let z := 0.9 * d
  let V_Rd_max := alpha_cw * bw * z * v1 * fcd / (2 * 1000)
  let fywd := 500 / 1.15
  let V_Rd_s := if V_Ed > V_Rd_c then V_Ed * 1000 / (z * fywd * 2.5) * z * fywd * 2.5 / 1000 else 0
  if V_Ed > V_Rd_c then min (V_Rd_c + V_Rd_s) V_Rd_max else V_Rd_c

/-- Shear check per EC2 6.2, mirroring calculate_shear (governing resistance
factored out as shear_V_Rd).  The returned Asw_s reproduces the Python
truthiness test: a zero requirement is reported as None. -/
def calculate_shear (section_props : SectionProperties) (sec : BeamSection)
    (concrete : ConcreteProperties) (prestress : PrestressInput)
    (losses : PrestressLosses) (V_Ed h : ℝ) : ShearResult :=
  let Ap := prestress.steel.strand_area * (prestress.tendon.num_strands : ℝ)
  let sigma_pe := prestress.jacking_stress - losses.total
  let P_e := sigma_pe * Ap / 1000
  let bw := get_web_width sec
  let d := 0.9 * h
  let fck := concrete.fck
  let fcd := 0.85 * fck / 1.5
  let k := min (1 + Real.sqrt (200 / d)) 2.0
  let rho_l := min (Ap / (bw * d)) 0.02
  let sigma_cp := min (P_e * 1000 / section_props.area) (0.2 * fcd)
  let C_Rd_c := 0.18 / 1.5
  let k1 := (0.15 : ℝ)
  let V_Rd_c0 := (C_Rd_c * k * (100 * rho_l * fck) ^ ((1 : ℝ) / 3) + k1 * sigma_cp) * bw * d / 1000
  let v_min := 0.035 * k ^ ((1.5 : ℝ)) * fck ^ ((0.5 : ℝ))
  let V_Rd_c_min := (v_min + k1 * sigma_cp) * bw * d / 1000
  let V_Rd_c := max V_Rd_c0 V_Rd_c_min
  let alpha_cw := if sigma_cp > 0 then 1 + sigma_cp / fcd else 1
  let v1 := 0.6 * (1 - fck / 250)
  let z := 0.9 * d
  let V_Rd_max := alpha_cw * bw * z * v1 * fcd / (2 * 1000)
  let fywd := 500 / 1.15
  let Asw_s_val := V_Ed * 1000 / (z * fywd * 2.5)
  let V_Rd_s := if V_Ed > V_Rd_c then Asw_s_val * z * fywd * 2.5 / 1000 else 0
  let V_Rd := shear_V_Rd section_props sec concrete prestress losses V_Ed h
  let utilization : EReal := if V_Rd > 0 then ((V_Ed / V_Rd : ℝ) : EReal) else ⊤
  let status := if utilization ≤ (1 : EReal) then "PASS" else "FAIL"
  { V_Ed := V_Ed, V_Rd_c := V_Rd_c, V_Rd_s := V_Rd_s, V_Rd_max := V_Rd_max
    utilization := utilization, status := status
    shear_reinforcement_required := if V_Ed > V_Rd_c then true else false
    Asw_s := if V_Ed > V_Rd_c then (if Asw_s_val = 0 then none else some Asw_s_val) else none }

/-- Deflection verifier results (DeflectionResult model). -/
structure DeflectionResult where
  delta_immediate : ℝ
  delta_long_term : ℝ
  delta_total : ℝ
  span_ratio : EReal
  limit : ℝ
  utilization : ℝ
  status : String

/-- Deflection check per EC2 7.4, mirroring calculate_deflection. -/
def calculate_deflection (section_props : SectionProperties)
    (concrete : ConcreteProperties) (prestress : PrestressInput)
    (losses : PrestressLosses) (span total_udl eccentricity : ℝ) : DeflectionResult :=
  let Ap := prestress.steel.strand_area * (prestress.tendon.num_strands : ℝ)
  let sigma_pe := prestress.jacking_stress - losses.total
  let P_e := sigma_pe * Ap / 1000
  let L := span * 1000
  let w := total_udl / 1000
  let I := section_props.I
  let Ecm := concrete.Ecm * 1000
  let delta_load := 5 * w * L ^ 4 / (384 * Ecm * I)
  let delta_prestress := P_e * 1000 * eccentricity * L ^ 2 / (8 * Ecm * I)
  let delta_immediate := delta_load - delta_prestress
  let delta_long_term := delta_immediate * concrete.creep_coefficient
  let delta_total := delta_immediate + delta_long_term
  let limit := L / 250
  let span_ratio : EReal := if delta_total ≠ 0 then ((L / |delta_total| : ℝ) : EReal) else ⊤
  let utilization := if limit > 0 then |delta_total| / limit else 0
  let status := if utilization ≤ 1 then "PASS" else "FAIL"
  { delta_immediate := delta_immediate, delta_long_term := delta_long_term
    delta_total := delta_total, span_ratio := span_ratio, limit := limit
    utilization := utilization, status := status }

/-- Crack width verifier results (CrackWidthResult model). -/
structure CrackWidthResult where
  wk : ℝ
  wk_limit : ℝ
  utilization : ℝ
  status : String
  sr_max : ℝ
  epsilon_sm_cm : ℝ

/-- Effective prestress force used by the crack-width check (kN). -/
def crack_P_e (prestress : PrestressInput) (losses : PrestressLosses) : ℝ :=
  (prestress.jacking_stress - losses.total)
    * (prestress.steel.strand_area * (prestress.tendon.num_strands : ℝ)) / 1000

/-- The decompression moment M_dec = P_e (1000/A + 1000 e / Z_b) Z_b / 1e6
computed inside calculate_crack_width (kNm). -/
def crack_M_dec (prestress : PrestressInput) (losses : PrestressLosses)
    (section_props : SectionProperties) (eccentricity : ℝ) : ℝ :=
  crack_P_e prestress losses
    * (1000 / section_props.area + 1000 * eccentricity / section_props.Z_bot)
    * section_props.Z_bot / 1e6

/-- Exposure-class crack-width limit table of calculate_crack_width, with the
dictionary default 0.3 for unrecognised classes. -/
def wk_limit_of (exposureClass : String) : ℝ :=
  if exposureClass = "X0" then 0.4
  else if exposureClass = "XC1" then 0.3
  else if exposureClass = "XC2" then 0.3
  else if exposureClass = "XC3" then 0.3
  else if exposureClass = "XC4" then 0.3
  else if exposureClass = "XD1" then 0.3
  else if exposureClass = "XD2" then 0.3
  else if exposureClass = "XD3" then 0.2
  else if exposureClass = "XS1" then 0.3
  else if exposureClass = "XS2" then 0.3
  else if exposureClass = "XS3" then 0.2
  else 0.3

/-- Crack width check per EC2 7.3, mirroring calculate_crack_width.  Before
any crack computation the service moment is compared with the decompression
moment; at or below it, a zero-width uncracked pass is returned. -/
def calculate_crack_width (section_props : SectionProperties)
    (concrete : ConcreteProperties) (prestress : PrestressInput)
    (losses : PrestressLosses) (M_Ed eccentricity h : ℝ)
    (exposureClass : String) : CrackWidthResult :=
  let Ap := prestress.steel.strand_area * (prestress.tendon.num_strands : ℝ)
  let sigma_pe := prestress.jacking_stress - losses.total
  let c := (50 : ℝ)
  let d := h - (h / 2 - eccentricity)
  let Es := prestress.steel.Ep * 1000
  let Ecm := concrete.Ecm * 1000
  let alpha_e := Es / Ecm
  let z := 0.9 * d
  let sigma_s := M_Ed * 1e6 / (Ap * z) - sigma_pe + sigma_pe
  let M_dec := crack_M_dec prestress losses section_props eccentricity
  if M_Ed ≤ M_dec then
    { wk := 0, wk_limit := 0.2, utilization := 0, status := "PASS - Uncracked"
      sr_max := 0, epsilon_sm_cm := 0 }
  else
    let k1 := (0.8 : ℝ)
    let k2 := (0.5 : ℝ)
    let k3 := (3.4 : ℝ)
    let k4 := (0.425 : ℝ)
    let phi_s := Real.sqrt (4 * prestress.steel.strand_area / Real.pi)
    let rho_p_eff := min (Ap / (2.5 * (h - d) * get_web_width_from_h h)) 0.05
    let sr_max := k3 * c + k1 * k2 * k4 * phi_s / rho_p_eff
    let fct_eff := concrete.fctm
    let kt := (0.4 : ℝ)
    let epsilon_sm_cm := max
      ((sigma_s - kt * fct_eff / rho_p_eff * (1 + alpha_e * rho_p_eff)) / Es)
      (0.6 * sigma_s / Es)
    let wk := sr_max * epsilon_sm_cm
    let wk_limit := wk_limit_of exposureClass
    let utilization := if wk_limit > 0 then wk / wk_limit else 0
    let status := if utilization ≤ 1 then "PASS" else "FAIL"
    { wk := wk, wk_limit := wk_limit, utilization := utilization, status := status
      sr_max := sr_max, epsilon_sm_cm := epsilon_sm_cm }

/-- Substring containment on strings, modelling the Python membership test
pat in s. -/
def containsSub (s pat : String) : Prop :=
  ∃ pre post : List Char, s.data = pre ++ pat.data ++ post

/-- A verdict counts as passing in the overall aggregation when its status is
PASS or mentions Uncracked, mirroring the generator expression of
perform_full_analysis. -/
def statusPasses (s : String) : Prop := s = "PASS" ∨ containsSub s "Uncracked"

open Classical in
/-- The overall aggregation of perform_full_analysis over the four verdict
status strings: PASS exactly when every verdict passes. -/
def overallStatus (fs ss ds cs : String) : String :=
  if statusPasses fs ∧ statusPasses ss ∧ statusPasses ds ∧ statusPasses cs
  then "PASS" else "FAIL"

/-- Cable concordancy bound check, mirroring check_cable_concordancy. -/
def check_cable_concordancy (tendon : TendonGeometry)
    (section_props : SectionProperties) (h : ℝ) : Prop :=
  let y_b := section_props.y_bot
  match tendon.profile_type with
  | TendonProfile.straight => |pyOr tendon.eccentricity 0| < y_b - 50
  | TendonProfile.parabolic =>
      |pyOr tendon.e_mid 0| < y_b - 50 ∧ |pyOr tendon.e_end 0| < y_b - 50
  | TendonProfile.multi_parabolic =>
      |pyOr tendon.e_mid 0| < y_b - 50 ∧ |pyOr tendon.e_end 0| < y_b - 50
  | TendonProfile.harped =>
      |pyOr tendon.e_support 0| < y_b - 50 ∧ |pyOr tendon.e_drape 0| < y_b - 50

/-- Complete analysis results (AnalysisResults model). -/
structure AnalysisResults where
  section_properties : SectionProperties
  prestress_losses : PrestressLosses
  magnel_diagram : MagnelDiagram
  flexure : FlexureResult
  shear : ShearResult
  deflection : DeflectionResult
  crack_width : CrackWidthResult
  cable_concordancy : Prop
  overall_status : String

open Classical in
/-- Complete beam analysis, mirroring perform_full_analysis: section
properties, self-weight, eccentricity selection, the three demand states,
losses, Magnel diagram, the four limit-state checks (crack width at the
default exposure class XC1) and the overall aggregation. -/
def perform_full_analysis (span : ℝ) (sec : BeamSection)
    (concrete : ConcreteProperties) (prestress : PrestressInput)
    (load_cases : List LoadCase) (include_self_weight : Bool) : AnalysisResults :=
  let section_props := calculate_section_properties sec
  let h := get_section_height sec
  let self_weight_udl :=
    if include_self_weight then section_props.area * concrete.density / 1e6 else 0
  let tendon := prestress.tendon
  let eccentricity :=
    match tendon.profile_type with
    | TendonProfile.straight => pyOr tendon.eccentricity (section_props.y_bot * 0.7)
    | TendonProfile.parabolic => pyOr tendon.e_mid (section_props.y_bot * 0.7)
    | TendonProfile.multi_parabolic => pyOr tendon.e_mid (section_props.y_bot * 0.7)
    | TendonProfile.harped => pyOr tendon.e_drape (section_props.y_bot * 0.7)
  let transfer := calculate_moments_and_shear span [] self_weight_udl 1.0
  let M_transfer := transfer.1
  let service := calculate_moments_and_shear span load_cases self_weight_udl 1.0
  let M_service := service.1
  let total_udl := service.2.2.2
  let uls := calculate_moments_and_shear span load_cases (self_weight_udl * 1.35) 1.5
  let M_uls := uls.1
  let V_uls := uls.2.1
  let losses := calculate_prestress_losses prestress section_props concrete span eccentricity
  let magnel := calculate_magnel_diagram section_props concrete M_transfer M_service losses h
  let flexure :=
    calculate_flexure section_props concrete prestress losses M_uls M_transfer eccentricity h
  let shear := calculate_shear section_props sec concrete prestress losses V_uls h
  let deflection :=
    calculate_deflection section_props concrete prestress losses span total_udl eccentricity
  let crack_width :=
    calculate_crack_width section_props concrete prestress losses M_service eccentricity h "XC1"
  let concordancy := check_cable_concordancy tendon section_props h
  let overall_status :=
    overallStatus flexure.status shear.status deflection.status crack_width.status
  { section_properties := section_props
    prestress_losses := losses
    magnel_diagram := magnel
    flexure := flexure
    shear := shear
    deflection := deflection
    crack_width := crack_width
    cable_concordancy := concordancy
    overall_status := overall_status }

/-- Section property record with simple round numbers, used as witness input. -/
def witnessSP : SectionProperties :=
  { area := 1000, I := 1, y_top := 100, y_bot := 100
    Z_top := 1e6, Z_bot := 1e6, perimeter := 1 }

/-- Pretensioned configuration with simple round numbers, used as witness input. -/
def witnessPrestress : PrestressInput :=
  { prestress_type := PrestressType.pretensioned, jacking_stress := 1100
    tendon :=
      { profile_type := TendonProfile.straight, num_strands := 10
        eccentricity := some 100, e_end := none, e_mid := none
        e_support := none, e_drape := none, drape_position := none
        inflection_points := none, eccentricities := none }
    steel :=
      { fp01k := 1640, fpk := 1860, Ep := 195, strand_type := StrandType.seven_wire_strand
        strand_area := 100, relaxationClass := 2, relaxation_loss_1000h := 2.5 }
    duct_diameter := none, friction_coefficient := 0.19, wobble_coefficient := 0.008 }

/-- Loss record carrying only a 100 MPa grand total, used as witness input. -/
def flatLosses : PrestressLosses :=
  { elastic_shortening := 0, friction := 0, anchorage_slip := 0, creep := 0
    shrinkage := 0, relaxation := 0, total_immediate := 0
    total_time_dependent := 0, total := 100, loss_ratio := 10 }

/-- All-zero loss record, used as witness input. -/
def zeroLosses : PrestressLosses :=
  { elastic_shortening := 0, friction := 0, anchorage_slip := 0, creep := 0
    shrinkage := 0, relaxation := 0, total_immediate := 0
    total_time_dependent := 0, total := 0, loss_ratio := 0 }

/-- Concrete property record with fck = 0, used as witness input for the
zero-capacity shear case. -/
def zeroConcrete : ConcreteProperties :=
  { fck := 0, fck_cube := 0, fcm := 8, fctm := 0, fctk_005 := 0, fctk_095 := 0
    Ecm := 22, density := 25, creep_coefficient := 2, shrinkage_strain := 0.0003 }

/-- Prestress configuration with zero jacking stress, used as witness input. -/
def zeroPrestress : PrestressInput :=
  { witnessPrestress with jacking_stress := 0 }

/-- Prestress configuration with no strands, so the flexural capacity is
exactly zero; used as witness input. -/
def zeroStrandPrestress : PrestressInput :=
  { samplePrestress with
      tendon :=
        { profile_type := TendonProfile.parabolic, num_strands := 0
          eccentricity := none, e_end := some 0, e_mid := some 300
          e_support := none, e_drape := none, drape_position := none
          inflection_points := none, eccentricities := none } }

/-- Load case carrying a UDL, a point load and an applied moment, used as
witness input. -/
def momentCaseA : LoadCase :=
  { name := "lc", udl := 5, point_loads := [{ magnitude := 100, position := 3 }]
    moments := [{ magnitude := 50, position := 2 }], is_permanent := false
    load_factor_uls := 1.5, load_factor_sls := 1.0 }

/-- The same load case with its applied moment deleted, used as witness input. -/
def momentCaseB : LoadCase := { momentCaseA with moments := [] }

/-- A single 15 kN/m imposed UDL load case, used as witness input. -/
def udlCase : LoadCase :=
  { name := "imposed", udl := 15, point_loads := [], moments := []
    is_permanent := false, load_factor_uls := 1.5, load_factor_sls := 1.0 }

/-- C6: for every fck > 0 the derived tensile fractiles straddle the mean,
fctk_005 < fctm < fctk_095, and Ecm is strictly increasing in fck. -/
theorem C6_concrete_property_relations (fck fck1 fck2 : ℝ)
    (hck : 0 < fck) (h1 : 0 < fck1) (h12 : fck1 < fck2) :
    ((calculate_concrete_properties fck).fctk_005 < (calculate_concrete_properties fck).fctm ∧
      (calculate_concrete_properties fck).fctm < (calculate_concrete_properties fck).fctk_095) ∧
    (calculate_concrete_properties fck1).Ecm < (calculate_concrete_properties fck2).Ecm := by
  have hfctm : ∀ x : ℝ, 0 < x → 0 < (calculate_concrete_properties x).fctm := by
    intro x hx
    simp only [calculate_concrete_properties]
    split_ifs with hle
    · have hp : (0 : ℝ) < x ^ ((2 : ℝ) / 3) := Real.rpow_pos_of_pos hx _
      nlinarith
    · have hlog : (0 : ℝ) < Real.log (1 + (x + 8) / 10) := by
        apply Real.log_pos
        nlinarith
      nlinarith
  refine ⟨?_, ?_⟩
  · have h0 := hfctm fck hck
    constructor
    · simp only [calculate_concrete_properties] at h0 ⊢
      nlinarith
    · simp only [calculate_concrete_properties] at h0 ⊢
      nlinarith
  · simp only [calculate_concrete_properties]
    have hb : (0 : ℝ) ≤ (fck1 + 8) / 10 := by linarith
    have hlt : (fck1 + 8) / 10 < (fck2 + 8) / 10 := by linarith
    have hr := Real.rpow_lt_rpow hb hlt (by norm_num : (0 : ℝ) < 0.3)
    nlinarith [Real.rpow_pos_of_pos (lt_of_le_of_lt hb hlt) (0.3 : ℝ)]

/-- Witness for C6 at concrete grades 30, 36 and 40 MPa. -/
theorem C6_concrete_property_relations_witness :
    (0 : ℝ) < 30 ∧ (0 : ℝ) < 36 ∧ (36 : ℝ) < 40 ∧
    ((calculate_concrete_properties 30).fctk_005 < (calculate_concrete_properties 30).fctm ∧
      (calculate_concrete_properties 30).fctm < (calculate_concrete_properties 30).fctk_095) ∧
    (calculate_concrete_properties 36).Ecm < (calculate_concrete_properties 40).Ecm :=
  ⟨by norm_num, by norm_num, by norm_num,
    (C6_concrete_property_relations 30 36 40 (by norm_num) (by norm_num) (by norm_num)).1,
    (C6_concrete_property_relations 30 36 40 (by norm_num) (by norm_num) (by norm_num)).2⟩

/-- C7: a 400 x 800 mm rectangular section has area 320000 mm^2, second moment
exactly 400 * 800^3 / 12 (within 0.1 percent of 1.7067e10 mm^4) and fiber
distances y_top = y_bot = 400 mm. -/
theorem C7_rectangular_section_400x800 :
    (calculate_section_properties (BeamSection.rectangular ⟨400, 800⟩)).area = 320000 ∧
    (calculate_section_properties (BeamSection.rectangular ⟨400, 800⟩)).I = 400 * 800 ^ 3 / 12 ∧
    |(calculate_section_properties (BeamSection.rectangular ⟨400, 800⟩)).I - 1.7067e10|
      ≤ 0.001 * 1.7067e10 ∧
    (calculate_section_properties (BeamSection.rectangular ⟨400, 800⟩)).y_top = 400 ∧
    (calculate_section_properties (BeamSection.rectangular ⟨400, 800⟩)).y_bot = 400 := by
  refine ⟨by norm_num [calculate_section_properties], by norm_num [calculate_section_properties],
    ?_, by norm_num [calculate_section_properties], by norm_num [calculate_section_properties]⟩
  simp only [calculate_section_properties]
  rw [abs_le]
  norm_num

/-- C2: the relaxation loss component returned by calculate_prestress_losses
is capped at 8 percent of the jacking stress, for every relaxation class and
every value of the internal mu. -/
theorem C2_relaxation_cap (prestress : PrestressInput) (section_props : SectionProperties)
    (concrete : ConcreteProperties) (span eccentricity : ℝ)
    (hj : 0 ≤ prestress.jacking_stress) :
    (calculate_prestress_losses prestress section_props concrete span eccentricity).relaxation
      ≤ 0.08 * prestress.jacking_stress := by
  simp only [calculate_prestress_losses]
  exact min_le_right _ _

/-- Witness for C2 at a concrete post-tensioned configuration. -/
theorem C2_relaxation_cap_witness :
    0 ≤ samplePrestress.jacking_stress ∧
    (calculate_prestress_losses samplePrestress sampleSectionProps
        (calculate_concrete_properties 40) 20 300).relaxation
      ≤ 0.08 * samplePrestress.jacking_stress :=
  ⟨by norm_num [samplePrestress],
    C2_relaxation_cap samplePrestress sampleSectionProps (calculate_concrete_properties 40)
      20 300 (by norm_num [samplePrestress])⟩

/-- Every point an emitting Magnel line keeps has strictly positive
inverse-force and takes its eccentricity from the grid it scanned. -/
lemma magnelEmit_filterMap_spec (num den : ℝ → ℝ) (grid : List ℝ) (p : MagnelPoint)
    (hp : p ∈ grid.filterMap fun e => magnelEmit (num e) (den e) e) :
    0 < p.inverse_force ∧ p.eccentricity ∈ grid := by
  rcases List.mem_filterMap.1 hp with ⟨e, he, hemit⟩
  unfold magnelEmit at hemit
  by_cases h1 : |den e| > 1e-6
  · rw [if_pos h1] at hemit
    by_cases h2 : num e / den e > 0
    · rw [if_pos h2] at hemit
      have hpe := Option.some.inj hemit
      cases hpe
      exact ⟨mul_pos h2 (by norm_num : (0 : ℝ) < 1e3), he⟩
    · rw [if_neg h2] at hemit
      exact absurd hemit (by simp)
  · rw [if_neg h1] at hemit
    exact absurd hemit (by simp)

/-- The Magnel grid always holds exactly 50 candidate eccentricities. -/
lemma magnelEccRange_length (sp : SectionProperties) : (magnelEccRange sp).length = 50 := by
  simp only [magnelEccRange, List.length_map, List.length_range]

/-- Every filterMap over the Magnel grid satisfies the per-line invariants. -/
lemma magnelLineOK_filterMap (sp : SectionProperties) (num den : ℝ → ℝ) :
    magnelLineOK ((magnelEccRange sp).filterMap fun e => magnelEmit (num e) (den e) e)
      (magnelEccRange sp) := by
  constructor
  · calc ((magnelEccRange sp).filterMap fun e => magnelEmit (num e) (den e) e).length
        ≤ (magnelEccRange sp).length := List.length_filterMap_le _ _
      _ = 50 := magnelEccRange_length sp
  · intro p hp
    exact magnelEmit_filterMap_spec num den _ p hp

/-- C3: every point on each of the four Magnel lines has strictly positive
inverse-force and comes from the 50-point eccentricity grid (so each line has
at most 50 points), and the eccentricity bounds are strictly ordered whenever
y_top + y_bot = h and the section height h exceeds 100 mm. -/
theorem C3_magnel_invariants (sp : SectionProperties) (concrete : ConcreteProperties)
    (M_min M_max : ℝ) (losses : PrestressLosses) (h : ℝ) :
    magnelLineOK (calculate_magnel_diagram sp concrete M_min M_max losses h).line1_top_transfer
      (magnelEccRange sp) ∧
    magnelLineOK (calculate_magnel_diagram sp concrete M_min M_max losses h).line2_bot_transfer
      (magnelEccRange sp) ∧
    magnelLineOK (calculate_magnel_diagram sp concrete M_min M_max losses h).line3_top_service
      (magnelEccRange sp) ∧
    magnelLineOK (calculate_magnel_diagram sp concrete M_min M_max losses h).line4_bot_service
      (magnelEccRange sp) ∧
    (sp.y_top + sp.y_bot = h → 100 < h →
      (calculate_magnel_diagram sp concrete M_min M_max losses h).min_eccentricity
        < (calculate_magnel_diagram sp concrete M_min M_max losses h).max_eccentricity) := by
  refine ⟨?_, ?_, ?_, ?_, ?_⟩
  · simp only [calculate_magnel_diagram]
    exact magnelLineOK_filterMap sp _ _
  · simp only [calculate_magnel_diagram]
    exact magnelLineOK_filterMap sp _ _
  · simp only [calculate_magnel_diagram]
    exact magnelLineOK_filterMap sp _ _
  · simp only [calculate_magnel_diagram]
    exact magnelLineOK_filterMap sp _ _
  · intro hsum hh
    simp only [calculate_magnel_diagram]
    linarith

/-- Witness for C3 on the sample 400 x 800 mm section, whose fiber distances
sum to the 800 mm height. -/
theorem C3_magnel_invariants_witness :
    sampleSectionProps.y_top + sampleSectionProps.y_bot = 800 ∧ (100 : ℝ) < 800 ∧
    (calculate_magnel_diagram sampleSectionProps (calculate_concrete_properties 40)
        100 500 sampleLosses 800).min_eccentricity
      < (calculate_magnel_diagram sampleSectionProps (calculate_concrete_properties 40)
        100 500 sampleLosses 800).max_eccentricity :=
  ⟨by norm_num [sampleSectionProps, calculate_section_properties], by norm_num,
    (C3_magnel_invariants sampleSectionProps (calculate_concrete_properties 40)
        100 500 sampleLosses 800).2.2.2.2
      (by norm_num [sampleSectionProps, calculate_section_properties]) (by norm_num)⟩

/-- C10: the flexural capacity, utilization and verdict of calculate_flexure
do not depend on the SectionProperties argument, because the stress-block
width is the fixed 0.3 h estimate of get_web_width_from_h; only the four
diagnostic fiber-stress fields may differ. -/
theorem C10_flexure_ignores_section_properties (sp1 sp2 : SectionProperties)
    (concrete : ConcreteProperties) (prestress : PrestressInput)
    (losses : PrestressLosses) (M_Ed M_transfer eccentricity h : ℝ) :
    (calculate_flexure sp1 concrete prestress losses M_Ed M_transfer eccentricity h).M_Rd
      = (calculate_flexure sp2 concrete prestress losses M_Ed M_transfer eccentricity h).M_Rd ∧
    (calculate_flexure sp1 concrete prestress losses M_Ed M_transfer eccentricity h).utilization
      = (calculate_flexure sp2 concrete prestress losses M_Ed M_transfer eccentricity h).utilization ∧
    (calculate_flexure sp1 concrete prestress losses M_Ed M_transfer eccentricity h).status
      = (calculate_flexure sp2 concrete prestress losses M_Ed M_transfer eccentricity h).status ∧
    (calculate_flexure sp1 concrete prestress losses M_Ed M_transfer eccentricity h).M_Ed
      = (calculate_flexure sp2 concrete prestress losses M_Ed M_transfer eccentricity h).M_Ed ∧
    get_web_width_from_h h = 0.3 * h :=
  ⟨rfl, rfl, rfl, rfl, by simp [get_web_width_from_h, mul_comm]⟩

/-- C4: whenever the service moment lies below the decompression moment, the
crack-width check returns wk = 0, utilization = 0 and a status containing
Uncracked, for every exposure-class string. -/
theorem C4_uncracked_below_decompression (section_props : SectionProperties)
    (concrete : ConcreteProperties) (prestress : PrestressInput)
    (losses : PrestressLosses) (M_Ed eccentricity h : ℝ) (exposureClass : String)
    (hM : M_Ed < crack_M_dec prestress losses section_props eccentricity) :
    (calculate_crack_width section_props concrete prestress losses M_Ed eccentricity h
        exposureClass).wk = 0 ∧
    (calculate_crack_width section_props concrete prestress losses M_Ed eccentricity h
        exposureClass).utilization = 0 ∧
    containsSub (calculate_crack_width section_props concrete prestress losses M_Ed eccentricity h
        exposureClass).status "Uncracked" := by
  have hle : M_Ed ≤ crack_M_dec prestress losses section_props eccentricity := le_of_lt hM
  simp only [calculate_crack_width]
  rw [if_pos hle]
  exact ⟨rfl, rfl, ⟨"PASS - ".data, [], by decide⟩⟩

/-- Witness for C4: a 50 kNm service moment against an 1100 kNm decompression
moment, checked at exposure class XS3. -/
theorem C4_uncracked_below_decompression_witness :
    (50 : ℝ) < crack_M_dec witnessPrestress flatLosses witnessSP 100 ∧
    ((calculate_crack_width witnessSP (calculate_concrete_properties 40) witnessPrestress
        flatLosses 50 100 800 "XS3").wk = 0 ∧
      (calculate_crack_width witnessSP (calculate_concrete_properties 40) witnessPrestress
        flatLosses 50 100 800 "XS3").utilization = 0 ∧
      containsSub (calculate_crack_width witnessSP (calculate_concrete_properties 40)
        witnessPrestress flatLosses 50 100 800 "XS3").status "Uncracked") :=
  ⟨by norm_num [crack_M_dec, crack_P_e, witnessPrestress, flatLosses, witnessSP],
    C4_uncracked_below_decompression witnessSP (calculate_concrete_properties 40)
      witnessPrestress flatLosses 50 100 800 "XS3"
      (by norm_num [crack_M_dec, crack_P_e, witnessPrestress, flatLosses, witnessSP])⟩

/-- The float infinity comparison: top is never at most one in EReal. -/
lemma ereal_top_not_le_one : ¬ ((⊤ : EReal) ≤ (1 : EReal)) := by
  rw [top_le_iff]
  intro h
  exact EReal.coe_ne_top 1 (by rw [EReal.coe_one]; exact h)

/-- C8: when the computed capacity is zero, the verifier reports an infinite
utilization and a FAIL status, both for flexure (M_Rd = 0) and for shear
(V_Rd = 0). -/
theorem C8_zero_capacity_reports_infinite (spF : SectionProperties)
    (concreteF : ConcreteProperties) (prestressF : PrestressInput)
    (lossesF : PrestressLosses) (M_Ed M_transfer eccF hF : ℝ)
    (spS : SectionProperties) (secS : BeamSection) (concreteS : ConcreteProperties)
    (prestressS : PrestressInput) (lossesS : PrestressLosses) (V_Ed hS : ℝ)
    (hM : flexure_M_Rd concreteF prestressF eccF hF = 0)
    (hV : shear_V_Rd spS secS concreteS prestressS lossesS V_Ed hS = 0) :
    (calculate_flexure spF concreteF prestressF lossesF M_Ed M_transfer eccF hF).utilization
      = ⊤ ∧
    (calculate_flexure spF concreteF prestressF lossesF M_Ed M_transfer eccF hF).status
      = "FAIL" ∧
    (calculate_shear spS secS concreteS prestressS lossesS V_Ed hS).utilization = ⊤ ∧
    (calculate_shear spS secS concreteS prestressS lossesS V_Ed hS).status = "FAIL" := by
  have hMnot : ¬ flexure_M_Rd concreteF prestressF eccF hF > 0 := by
    rw [hM]; exact lt_irrefl 0
  have hVnot : ¬ shear_V_Rd spS secS concreteS prestressS lossesS V_Ed hS > 0 := by
    rw [hV]; exact lt_irrefl 0
  refine ⟨?_, ?_, ?_, ?_⟩
  · simp only [calculate_flexure]
    rw [if_neg hMnot]
  · simp only [calculate_flexure]
    rw [if_neg hMnot, if_neg ereal_top_not_le_one]
  · simp only [calculate_shear]
    rw [if_neg hVnot]
  · simp only [calculate_shear]
    rw [if_neg hVnot, if_neg ereal_top_not_le_one]

/-- Witness for C8: a strand-free tendon gives M_Rd = 0 and a zero-strength,
zero-prestress shear configuration gives V_Rd = 0; both report FAIL with an
infinite utilization. -/
theorem C8_zero_capacity_reports_infinite_witness :
    flexure_M_Rd (calculate_concrete_properties 40) zeroStrandPrestress 280 800 = 0 ∧
    shear_V_Rd witnessSP (BeamSection.rectangular ⟨300, 500⟩) zeroConcrete zeroPrestress
      zeroLosses 0 500 = 0 ∧
    ((calculate_flexure sampleSectionProps (calculate_concrete_properties 40)
        zeroStrandPrestress zeroLosses 500 100 280 800).utilization = ⊤ ∧
      (calculate_flexure sampleSectionProps (calculate_concrete_properties 40)
        zeroStrandPrestress zeroLosses 500 100 280 800).status = "FAIL" ∧
      (calculate_shear witnessSP (BeamSection.rectangular ⟨300, 500⟩) zeroConcrete
        zeroPrestress zeroLosses 0 500).utilization = ⊤ ∧
      (calculate_shear witnessSP (BeamSection.rectangular ⟨300, 500⟩) zeroConcrete
        zeroPrestress zeroLosses 0 500).status = "FAIL") :=
  ⟨by norm_num [flexure_M_Rd, zeroStrandPrestress, samplePrestress, sampleSteel],
    by norm_num [shear_V_Rd, zeroConcrete, zeroPrestress, zeroLosses, witnessSP,
      witnessPrestress, get_web_width, Real.zero_rpow],
    C8_zero_capacity_reports_infinite sampleSectionProps (calculate_concrete_properties 40)
      zeroStrandPrestress zeroLosses 500 100 280 800 witnessSP
      (BeamSection.rectangular ⟨300, 500⟩) zeroConcrete zeroPrestress zeroLosses 0 500
      (by norm_num [flexure_M_Rd, zeroStrandPrestress, samplePrestress, sampleSteel])
      (by norm_num [shear_V_Rd, zeroConcrete, zeroPrestress, zeroLosses, witnessSP,
        witnessPrestress, get_web_width, Real.zero_rpow])⟩

/-- Two load-case lists that agree after deleting applied moments produce
identical demand tuples: the moments field is never read by the demand
calculator. -/
lemma cms_congr_of_eraseMoments (span sw factor : ℝ) (lcs1 lcs2 : List LoadCase)
    (hm : lcs1.map eraseMoments = lcs2.map eraseMoments) :
    calculate_moments_and_shear span lcs1 sw factor
      = calculate_moments_and_shear span lcs2 sw factor := by
  have hudl : lcs1.map (fun lc => lc.udl * factor) = lcs2.map (fun lc => lc.udl * factor) := by
    have h := congrArg (List.map fun lc => lc.udl * factor) hm
    simpa [List.map_map, Function.comp, eraseMoments] using h
  have hM : lcs1.map (fun lc => (lc.point_loads.map fun pl =>
        pl.magnitude * factor * pl.position * (span - pl.position) / span).sum)
      = lcs2.map (fun lc => (lc.point_loads.map fun pl =>
        pl.magnitude * factor * pl.position * (span - pl.position) / span).sum) := by
    have h := congrArg (List.map fun lc => (lc.point_loads.map fun pl =>
      pl.magnitude * factor * pl.position * (span - pl.position) / span).sum) hm
    simpa [List.map_map, Function.comp, eraseMoments] using h
  have hV : lcs1.map (fun lc => (lc.point_loads.map fun pl =>
        pl.magnitude * factor * max pl.position (span - pl.position) / span).sum)
      = lcs2.map (fun lc => (lc.point_loads.map fun pl =>
        pl.magnitude * factor * max pl.position (span - pl.position) / span).sum) := by
    have h := congrArg (List.map fun lc => (lc.point_loads.map fun pl =>
      pl.magnitude * factor * max pl.position (span - pl.position) / span).sum) hm
    simpa [List.map_map, Function.comp, eraseMoments] using h
  simp only [calculate_moments_and_shear, hudl, hM, hV]

/-- C9: two load-case lists identical except for the contents of their
moments fields yield the same demand tuple from calculate_moments_and_shear
and the same full analysis result, so applied moment loads never influence
any demand value or downstream verdict. -/
theorem C9_moments_never_influence_demand (span sw factor : ℝ) (sec : BeamSection)
    (concrete : ConcreteProperties) (prestress : PrestressInput) (isw : Bool)
    (lcs1 lcs2 : List LoadCase)
    (hm : lcs1.map eraseMoments = lcs2.map eraseMoments) :
    calculate_moments_and_shear span lcs1 sw factor
      = calculate_moments_and_shear span lcs2 sw factor ∧
    perform_full_analysis span sec concrete prestress lcs1 isw
      = perform_full_analysis span sec concrete prestress lcs2 isw := by
  have hall : ∀ s f : ℝ, calculate_moments_and_shear span lcs1 s f
      = calculate_moments_and_shear span lcs2 s f :=
    fun s f => cms_congr_of_eraseMoments span s f lcs1 lcs2 hm
  refine ⟨hall sw factor, ?_⟩
  simp only [perform_full_analysis, hall]

/-- Witness for C9: deleting a 50 kNm applied moment changes neither the
demand tuple nor the analysis result. -/
theorem C9_moments_never_influence_demand_witness :
    [momentCaseA].map eraseMoments = [momentCaseB].map eraseMoments ∧
    (calculate_moments_and_shear 10 [momentCaseA] 8 1.5
        = calculate_moments_and_shear 10 [momentCaseB] 8 1.5 ∧
      perform_full_analysis 10 (BeamSection.rectangular ⟨400, 800⟩)
          (calculate_concrete_properties 40) samplePrestress [momentCaseA] true
        = perform_full_analysis 10 (BeamSection.rectangular ⟨400, 800⟩)
          (calculate_concrete_properties 40) samplePrestress [momentCaseB] true) :=
  ⟨rfl, C9_moments_never_influence_demand 10 8 1.5 (BeamSection.rectangular ⟨400, 800⟩)
    (calculate_concrete_properties 40) samplePrestress true [momentCaseA] [momentCaseB] rfl⟩

/-- Characterisation of the overall aggregation: PASS exactly when all four
status strings pass, FAIL in every other case. -/
lemma overallStatus_spec (fs ss ds cs : String) :
    (overallStatus fs ss ds cs = "PASS"
      ↔ (statusPasses fs ∧ statusPasses ss ∧ statusPasses ds ∧ statusPasses cs)) ∧
    (overallStatus fs ss ds cs = "PASS" ∨ overallStatus fs ss ds cs = "FAIL") := by
  unfold overallStatus
  by_cases hc : statusPasses fs ∧ statusPasses ss ∧ statusPasses ds ∧ statusPasses cs
  · rw [if_pos hc]
    exact ⟨⟨fun _ => hc, fun _ => rfl⟩, Or.inl rfl⟩
  · rw [if_neg hc]
    exact ⟨⟨fun hf => absurd hf (by decide), fun hcs => absurd hcs hc⟩, Or.inr rfl⟩

/-- C5: the overall status of perform_full_analysis is PASS exactly when all
four limit-state verdicts have status PASS or containing Uncracked, and is
FAIL otherwise. -/
theorem C5_overall_status (span : ℝ) (sec : BeamSection) (concrete : ConcreteProperties)
    (prestress : PrestressInput) (load_cases : List LoadCase) (isw : Bool) :
    ((perform_full_analysis span sec concrete prestress load_cases isw).overall_status = "PASS"
      ↔ (statusPasses (perform_full_analysis span sec concrete prestress load_cases isw).flexure.status ∧
         statusPasses (perform_full_analysis span sec concrete prestress load_cases isw).shear.status ∧
         statusPasses (perform_full_analysis span sec concrete prestress load_cases isw).deflection.status ∧
         statusPasses (perform_full_analysis span sec concrete prestress load_cases isw).crack_width.status)) ∧
    ((perform_full_analysis span sec concrete prestress load_cases isw).overall_status = "PASS" ∨
      (perform_full_analysis span sec concrete prestress load_cases isw).overall_status = "FAIL") := by
  simp only [perform_full_analysis]
  exact ⟨(overallStatus_spec _ _ _ _).1, (overallStatus_spec _ _ _ _).2⟩

/-- The ultimate flexural demand stored by the full analysis is the first
component of the ULS call of the demand calculator, whose self-weight
argument is already scaled by 1.35 before the 1.5 factor applies. -/
lemma pfa_flexure_M_Ed (span : ℝ) (sec : BeamSection) (concrete : ConcreteProperties)
    (prestress : PrestressInput) (lcs : List LoadCase) (isw : Bool) :
    (perform_full_analysis span sec concrete prestress lcs isw).flexure.M_Ed
      = (calculate_moments_and_shear span lcs
          ((if isw then (calculate_section_properties sec).area * concrete.density / 1e6
            else 0) * 1.35) 1.5).1 := rfl

/-- The ultimate shear demand stored by the full analysis is the second
component of the same ULS call of the demand calculator. -/
lemma pfa_shear_V_Ed (span : ℝ) (sec : BeamSection) (concrete : ConcreteProperties)
    (prestress : PrestressInput) (lcs : List LoadCase) (isw : Bool) :
    (perform_full_analysis span sec concrete prestress lcs isw).shear.V_Ed
      = (calculate_moments_and_shear span lcs
          ((if isw then (calculate_section_properties sec).area * concrete.density / 1e6
            else 0) * 1.35) 1.5).2.1 := rfl

/-- Closed form of the demand calculator when every load case carries only a
UDL: the elastic simply-supported values of the total factored UDL. -/
lemma cms_udl_only (span sw factor : ℝ) (lcs : List LoadCase)
    (hpl : ∀ lc ∈ lcs, lc.point_loads = []) :
    calculate_moments_and_shear span lcs sw factor
      = ((sw * factor + (lcs.map fun lc => lc.udl).sum * factor) * span ^ 2 / 8,
         (sw * factor + (lcs.map fun lc => lc.udl).sum * factor) * span / 2,
         (sw * factor + (lcs.map fun lc => lc.udl).sum * factor) * span ^ 2 / 8,
         sw * factor + (lcs.map fun lc => lc.udl).sum * factor) := by
  have hM : (lcs.map fun lc => (lc.point_loads.map fun pl =>
      pl.magnitude * factor * pl.position * (span - pl.position) / span).sum).sum = 0 := by
    apply List.sum_eq_zero
    intro x hx
    rcases List.mem_map.1 hx with ⟨lc, hlc, hxe⟩
    rw [← hxe, hpl lc hlc]
    simp
  have hV : (lcs.map fun lc => (lc.point_loads.map fun pl =>
      pl.magnitude * factor * max pl.position (span - pl.position) / span).sum).sum = 0 := by
    apply List.sum_eq_zero
    intro x hx
    rcases List.mem_map.1 hx with ⟨lc, hlc, hxe⟩
    rw [← hxe, hpl lc hlc]
    simp
  have hudl : (lcs.map fun lc => lc.udl * factor).sum = (lcs.map fun lc => lc.udl).sum * factor :=
    List.sum_map_mul_right lcs (fun lc => lc.udl) factor
  simp only [calculate_moments_and_shear, hM, hV, hudl, Prod.mk.injEq]
  and_intros <;> first | trivial | ring

/-- C1 counterexample: for a 10 m span 400 x 800 mm beam with self-weight
8 kN/m and no imposed loads, the analysis stores an ultimate moment of
202.5 kNm (self-weight scaled by 1.35 and again by 1.5), not the
135 kNm = (1.35 w_sw) span^2 / 8 demanded by the claim. -/
theorem C1_uls_factor_counterexample :
    (if true then (calculate_section_properties (BeamSection.rectangular ⟨400, 800⟩)).area
        * (calculate_concrete_properties 40).density / 1e6 else 0) = 8 ∧
    (perform_full_analysis 10 (BeamSection.rectangular ⟨400, 800⟩)
        (calculate_concrete_properties 40) samplePrestress [] true).flexure.M_Ed = 202.5 ∧
    ¬ ((perform_full_analysis 10 (BeamSection.rectangular ⟨400, 800⟩)
        (calculate_concrete_properties 40) samplePrestress [] true).flexure.M_Ed
      = (1.35 * 8 + 1.5 * 0) * 10 ^ 2 / 8) := by
  refine ⟨by norm_num [calculate_section_properties, calculate_concrete_properties], ?_, ?_⟩
  · rw [pfa_flexure_M_Ed, cms_udl_only 10 _ 1.5 [] (by intro lc h; cases h)]
    norm_num [calculate_section_properties, calculate_concrete_properties]
  · rw [pfa_flexure_M_Ed, cms_udl_only 10 _ 1.5 [] (by intro lc h; cases h)]
    norm_num [calculate_section_properties, calculate_concrete_properties]

/-- C1 amended: for load cases containing only UDLs the ultimate demand is
M_uls = (1.35 * 1.5 * w_sw + 1.5 * sum w_i) * span^2 / 8 and
V_uls = (1.35 * 1.5 * w_sw + 1.5 * sum w_i) * span / 2: the self-weight is
scaled by 1.35 and then by the common ULS factor 1.5 (net 2.025), while
imposed UDLs are scaled by 1.5. -/
theorem C1_uls_demand_amended (span : ℝ) (sec : BeamSection) (concrete : ConcreteProperties)
    (prestress : PrestressInput) (load_cases : List LoadCase) (isw : Bool)
    (hpl : ∀ lc ∈ load_cases, lc.point_loads = []) :
    (perform_full_analysis span sec concrete prestress load_cases isw).flexure.M_Ed
      = (1.35 * 1.5 * (if isw then (calculate_section_properties sec).area
            * concrete.density / 1e6 else 0)
          + 1.5 * (load_cases.map fun lc => lc.udl).sum) * span ^ 2 / 8 ∧
    (perform_full_analysis span sec concrete prestress load_cases isw).shear.V_Ed
      = (1.35 * 1.5 * (if isw then (calculate_section_properties sec).area
            * concrete.density / 1e6 else 0)
          + 1.5 * (load_cases.map fun lc => lc.udl).sum) * span / 2 := by
  rw [pfa_flexure_M_Ed, pfa_shear_V_Ed, cms_udl_only span _ 1.5 load_cases hpl]
  refine ⟨?_, ?_⟩ <;> (dsimp only; ring)

/-- Witness for the amended C1 on a 10 m beam with one 15 kN/m imposed UDL. -/
theorem C1_uls_demand_amended_witness :
    (∀ lc ∈ [udlCase], lc.point_loads = []) ∧
    ((perform_full_analysis 10 (BeamSection.rectangular ⟨400, 800⟩)
        (calculate_concrete_properties 40) samplePrestress [udlCase] true).flexure.M_Ed
      = (1.35 * 1.5 * (if true then
            (calculate_section_properties (BeamSection.rectangular ⟨400, 800⟩)).area
              * (calculate_concrete_properties 40).density / 1e6 else 0)
          + 1.5 * ([udlCase].map fun lc => lc.udl).sum) * 10 ^ 2 / 8 ∧
      (perform_full_analysis 10 (BeamSection.rectangular ⟨400, 800⟩)
        (calculate_concrete_properties 40) samplePrestress [udlCase] true).shear.V_Ed
      = (1.35 * 1.5 * (if true then
            (calculate_section_properties (BeamSection.rectangular ⟨400, 800⟩)).area
              * (calculate_concrete_properties 40).density / 1e6 else 0)
          + 1.5 * ([udlCase].map fun lc => lc.udl).sum) * 10 / 2) :=
  ⟨by intro lc h; rw [List.mem_singleton] at h; subst h; rfl,
    C1_uls_demand_amended 10 (BeamSection.rectangular ⟨400, 800⟩)
      (calculate_concrete_properties 40) samplePrestress [udlCase] true
      (by intro lc h; rw [List.mem_singleton] at h; subst h; rfl)⟩
